import Mathlib

/-!
Shallow embedding of the K-factor calculator (`src/main.py`): the logistic
K-factor curve `calculate_k_factor`, the bend-allowance and bend-deduction
formulas, the static reference table `table_data` with its closest-entry
scan, and the thickness guard of the app's calculation block.
-/

noncomputable section

namespace KFactor

/-- Constant `a` of `calculate_k_factor` (`src/main.py`, line 51). -/
def a : ℝ := 0.277833218

/-- Constant `b` of `calculate_k_factor` (`src/main.py`, line 52). -/
def b : ℝ := 1.056058295

/-- Constant `c` of `calculate_k_factor` (`src/main.py`, line 53). -/
def c : ℝ := 0.608320238

/-- Constant `d` of `calculate_k_factor` (`src/main.py`, line 54). -/
def d : ℝ := 0.502506534

/-- Embedding of `calculate_k_factor` (`src/main.py`, lines 48-55):
`d + (a - d) / (1 + (r_s / c) ** b)`, with `**` read as the real power
`Real.rpow` (the base is non-negative on the intended domain). -/
def calculate_k_factor (r_s : ℝ) : ℝ :=
  d + (a - d) / (1 + (r_s / c) ^ b)

/-- Embedding of `np.radians`: degrees to radians. -/
def radians (deg : ℝ) : ℝ := deg * Real.pi / 180

/-- Embedding of `calculate_bend_allowance` (`src/main.py`, lines 58-61). -/
def calculate_bend_allowance (k_factor bend_angle_deg inner_radius thickness : ℝ) : ℝ :=
  radians bend_angle_deg * (inner_radius + k_factor * thickness)

/-- Embedding of `calculate_bend_deduction` (`src/main.py`, lines 63-67):
`outside_setback = tan(bend_angle_rad / 2) * (inner_radius + thickness)`,
result `2 * outside_setback - bend_allowance`.  No branch guards the
angle anywhere in the function. -/
def calculate_bend_deduction (bend_allowance inner_radius thickness bend_angle_deg : ℝ) : ℝ :=
  2 * (Real.tan (radians bend_angle_deg / 2) * (inner_radius + thickness)) - bend_allowance

/-- The `r/s` column of `table_data` (`src/main.py`, line 71). -/
def table_data_rs : List ℝ :=
  [0.2, 0.4, 0.6, 0.8, 1.0, 1.5, 2.0, 2.5, 3.0, 4.0, 5.0, 7.0, 10.0, 15.0, 25.0]

/-- The `k` column of `table_data` (`src/main.py`, line 72). -/
def table_data_k : List ℝ :=
  [0.33, 0.37, 0.385, 0.405, 0.42, 0.44, 0.455, 0.46, 0.47, 0.475, 0.48, 0.485, 0.49, 0.495, 0.5]

/-- The reference table as `(r/s, k)` rows: the two parallel columns of
`table_data` zipped together. -/
def kTable : List (ℝ × ℝ) := table_data_rs.zip table_data_k

/-- The rows of `kTable`, written out. -/
theorem kTable_eq :
    kTable = [(0.2, 0.33), (0.4, 0.37), (0.6, 0.385), (0.8, 0.405), (1.0, 0.42),
      (1.5, 0.44), (2.0, 0.455), (2.5, 0.46), (3.0, 0.47), (4.0, 0.475),
      (5.0, 0.48), (7.0, 0.485), (10.0, 0.49), (15.0, 0.495), (25.0, 0.5)] := rfl

/-- Embedding of the closest-table-entry loop (`src/main.py`, lines 315-321):
walk the rows keeping the current best row and its distance `min_diff`,
updating only on a strictly smaller distance `abs(rs_val - r_s)`. -/
def scanClosest (r_s : ℝ) : List (ℝ × ℝ) → ℝ × ℝ → ℝ → ℝ × ℝ
  | [], best, _ => best
  | e :: rest, best, minDiff =>
      if |e.1 - r_s| < minDiff then scanClosest r_s rest e |e.1 - r_s|
      else scanClosest r_s rest best minDiff

/-- Embedding of lines 313-324 of `src/main.py`: the scan starts from the
first row with `min_diff = abs(table_data['r/s'][0] - r_s)` and visits every
row, returning `(closest_r_s, closest_k)`. -/
def closest_entry (r_s : ℝ) : ℝ × ℝ :=
  scanClosest r_s kTable kTable.headI |kTable.headI.1 - r_s|

/-- Outputs of the calculation block of `src/main.py` (lines 127-157):
`r_s` and `k_factor` metrics, the advanced bend metrics, and whether the
thickness error message was shown. -/
structure AppOutput where
  r_s : Option ℝ
  k_factor : Option ℝ
  bend_allowance : Option ℝ
  bend_deduction : Option ℝ
  thickness_error : Bool

/-- Embedding of the calculation block (`src/main.py`, lines 127-157): when
`s > 0` the ratio, K-factor and (when enabled) bend metrics are produced;
otherwise an error is surfaced and `r_s` and `k_factor` are set to `None`. -/
def runCalc (r s bend_angle : ℝ) (show_advanced : Bool) : AppOutput :=
  if 0 < s then
    ⟨some (r / s),
     some (calculate_k_factor (r / s)),
     if show_advanced then
       some (calculate_bend_allowance (calculate_k_factor (r / s)) bend_angle r s)
     else none,
     if show_advanced then
       some (calculate_bend_deduction
         (calculate_bend_allowance (calculate_k_factor (r / s)) bend_angle r s) r s bend_angle)
     else none,
     false⟩
  else
    ⟨none, none, none, none, true⟩

/-- Embedding of the table-comparison block (`src/main.py`, lines 313-326):
it runs only under `if r_s is not None`, producing the closest row. -/
def closest_comparison (out : AppOutput) : Option (ℝ × ℝ) :=
  out.r_s.map closest_entry

/-- The bend-angle widget's admissible range (`src/main.py`, line 119):
`min_value=0.1, max_value=180.0`. -/
def bend_angle_in_range (bend_angle : ℝ) : Prop :=
  0.1 ≤ bend_angle ∧ bend_angle ≤ 180

/-- The spec's formula for `computeKFactor`, written directly from the
spec's words: `k = d + (a - d) / (1 + (ratio / c) ^ b)` with the stated
constants. -/
def computeKFactorSpec (r_s : ℝ) : ℝ :=
  0.502506534 + (0.277833218 - 0.502506534) / (1 + (r_s / 0.608320238) ^ (1.056058295 : ℝ))

/-- Claim C1: for every non-negative real ratio, `calculate_k_factor`
equals the spec's formula `d + (a - d) / (1 + (ratio / c) ^ b)` with the
constants `a = 0.277833218`, `b = 1.056058295`, `c = 0.608320238`,
`d = 0.502506534`. -/
theorem claim_C1 (r_s : ℝ) (hr : 0 ≤ r_s) :
    calculate_k_factor r_s = computeKFactorSpec r_s := rfl

/-- Witness for C1 at the concrete ratio 2. -/
theorem claim_C1_witness :
    calculate_k_factor 2 = computeKFactorSpec 2 :=
  claim_C1 2 (by norm_num)

/-- Claim C3: for every `k`, `r`, `s` and every angle, the bend allowance is
`(angleDeg * π / 180) * (r + k * s)`, and an angle of 0 yields exactly 0. -/
theorem claim_C3 (k bend_angle_deg r s : ℝ) :
    calculate_bend_allowance k bend_angle_deg r s
      = bend_angle_deg * Real.pi / 180 * (r + k * s)
    ∧ calculate_bend_allowance k 0 r s = 0 := by
  constructor
  · rfl
  · show (0 : ℝ) * Real.pi / 180 * (r + k * s) = 0
    ring

/-- Claim C4: for every bend allowance, `r`, `s` and every angle strictly
between 0 and 180 degrees (where the tangent is defined), the bend deduction
is `2 * setback - bendAllowance` with
`setback = tan((angleDeg * π / 180) / 2) * (r + s)`. -/
theorem claim_C4 (bend_allowance r s bend_angle_deg : ℝ)
    (h0 : 0 < bend_angle_deg) (h180 : bend_angle_deg < 180) :
    calculate_bend_deduction bend_allowance r s bend_angle_deg
      = 2 * (Real.tan (bend_angle_deg * Real.pi / 180 / 2) * (r + s)) - bend_allowance := rfl

/-- Witness for C4 at a 90-degree bend with unit radius and thickness. -/
theorem claim_C4_witness :
    calculate_bend_deduction 0 1 1 90
      = 2 * (Real.tan ((90 : ℝ) * Real.pi / 180 / 2) * ((1 : ℝ) + 1)) - 0 :=
  claim_C4 0 1 1 90 (by norm_num) (by norm_num)

/-- Claim C5: when the thickness is non-positive, the calculation block
produces no ratio, K-factor, bend allowance or bend deduction, surfaces the
thickness error, and the table-comparison block produces nothing. -/
theorem claim_C5 (r s bend_angle : ℝ) (show_advanced : Bool) (hs : s ≤ 0) :
    runCalc r s bend_angle show_advanced = ⟨none, none, none, none, true⟩
    ∧ closest_comparison (runCalc r s bend_angle show_advanced) = none := by
  have h : ¬ (0 < s) := not_lt.mpr hs
  have hrun : runCalc r s bend_angle show_advanced = ⟨none, none, none, none, true⟩ := by
    unfold runCalc
    rw [if_neg h]
  exact ⟨hrun, by rw [hrun]; rfl⟩

/-- Witness for C5 at thickness 0. -/
theorem claim_C5_witness :
    runCalc 1 0 90 true = ⟨none, none, none, none, true⟩
    ∧ closest_comparison (runCalc 1 0 90 true) = none :=
  claim_C5 1 0 90 true (by norm_num)

/-- Claim C9: the reference table has exactly 15 rows, spans `r/s` from 0.2
to 25.0, and both its `r/s` column and its `k` column are strictly (hence
monotonically) increasing.  The table is constant data: every operation of
the embedding only reads it. -/
theorem claim_C9 :
    table_data_rs.length = 15 ∧ table_data_k.length = 15 ∧ kTable.length = 15
    ∧ kTable.headI = (0.2, 0.33) ∧ kTable.getLast? = some (25.0, 0.5)
    ∧ List.Chain' (fun x y => x < y) table_data_rs
    ∧ List.Chain' (fun x y => x < y) table_data_k := by
  refine ⟨rfl, rfl, rfl, rfl, rfl, ?_, ?_⟩
  · norm_num [table_data_rs, List.chain'_cons]
  · norm_num [table_data_k, List.chain'_cons]

/-- Claim C10: the bend-deduction computation is unguarded — for every
input, including an angle of exactly 180 degrees, it evaluates the tangent
formula as-is; the angle widget admits 180 exactly; and at 180 degrees the
half-angle is exactly π/2, whose cosine is 0, so the tangent there is the
undefined quotient of exact arithmetic. -/
theorem claim_C10 :
    (∀ bend_allowance r s bend_angle_deg : ℝ,
        calculate_bend_deduction bend_allowance r s bend_angle_deg
          = 2 * (Real.tan (bend_angle_deg * Real.pi / 180 / 2) * (r + s)) - bend_allowance)
    ∧ bend_angle_in_range 180
    ∧ radians 180 / 2 = Real.pi / 2
    ∧ Real.cos (radians 180 / 2) = 0 := by
  have hhalf : radians 180 / 2 = Real.pi / 2 := by
    unfold radians
    ring
  refine ⟨fun bend_allowance r s bend_angle_deg => rfl, ⟨by norm_num, le_refl _⟩, hhalf, ?_⟩
  rw [hhalf, Real.cos_pi_div_two]

/-- Claim C2: the K-factor curve is monotonically non-decreasing on the
non-negative ratios. -/
theorem claim_C2 (x y : ℝ) (hx : 0 ≤ x) (hxy : x ≤ y) :
    calculate_k_factor x ≤ calculate_k_factor y := by
  unfold calculate_k_factor a b c d
  have hc : (0 : ℝ) < 0.608320238 := by norm_num
  have hdiv : x / 0.608320238 ≤ y / 0.608320238 := by gcongr
  have hx0 : (0 : ℝ) ≤ x / 0.608320238 := div_nonneg hx hc.le
  have hpow : (x / 0.608320238 : ℝ) ^ (1.056058295 : ℝ)
      ≤ (y / 0.608320238 : ℝ) ^ (1.056058295 : ℝ) :=
    Real.rpow_le_rpow hx0 hdiv (by norm_num)
  have htx : (0 : ℝ) ≤ (x / 0.608320238 : ℝ) ^ (1.056058295 : ℝ) :=
    Real.rpow_nonneg hx0 _
  have h1 : (0 : ℝ) < 1 + (x / 0.608320238 : ℝ) ^ (1.056058295 : ℝ) := by linarith
  have h2 : (0 : ℝ) < 1 + (y / 0.608320238 : ℝ) ^ (1.056058295 : ℝ) := by linarith
  have hfrac : (0.277833218 - 0.502506534 : ℝ)
        / (1 + (x / 0.608320238 : ℝ) ^ (1.056058295 : ℝ))
      ≤ (0.277833218 - 0.502506534 : ℝ)
        / (1 + (y / 0.608320238 : ℝ) ^ (1.056058295 : ℝ)) := by
    rw [div_le_div_iff h1 h2]
    nlinarith [hpow]
  linarith

/-- Witness for C2 on the concrete pair 1 ≤ 2. -/
theorem claim_C2_witness : calculate_k_factor 1 ≤ calculate_k_factor 2 :=
  claim_C2 1 2 (by norm_num) (by norm_num)

/-- Claim C7: the curve's range is pinned by its endpoint constants:
`calculate_k_factor 0` is within 1e-6 of `a` (it equals `a` exactly), every
value at a non-negative ratio lies strictly below `d`, and at the ratio 1e6
the value is within 1e-4 of `d`. -/
theorem claim_C7 :
    |calculate_k_factor 0 - 0.277833218| ≤ 1e-6
    ∧ (∀ r_s : ℝ, 0 ≤ r_s → calculate_k_factor r_s < 0.502506534)
    ∧ |calculate_k_factor 1e6 - 0.502506534| ≤ 1e-4 := by
  refine ⟨?_, ?_, ?_⟩
  · have h0 : calculate_k_factor 0 = 0.277833218 := by
      unfold calculate_k_factor a b c d
      rw [zero_div, Real.zero_rpow (by norm_num)]
      norm_num
    rw [h0]
    norm_num
  · intro r_s hr
    unfold calculate_k_factor a b c d
    have hbase : (0 : ℝ) ≤ r_s / 0.608320238 := div_nonneg hr (by norm_num)
    have ht : (0 : ℝ) ≤ (r_s / 0.608320238 : ℝ) ^ (1.056058295 : ℝ) :=
      Real.rpow_nonneg hbase _
    have hpos : (0 : ℝ) < 1 + (r_s / 0.608320238 : ℝ) ^ (1.056058295 : ℝ) := by linarith
    have hneg : (0.277833218 - 0.502506534 : ℝ)
        / (1 + (r_s / 0.608320238 : ℝ) ^ (1.056058295 : ℝ)) < 0 :=
      div_neg_of_neg_of_pos (by norm_num) hpos
    linarith
  · have hc1 : (1 : ℝ) ≤ (1e6 : ℝ) / 0.608320238 := by norm_num
    have ht : ((1e6 : ℝ) / 0.608320238) ≤ ((1e6 : ℝ) / 0.608320238) ^ (1.056058295 : ℝ) := by
      calc ((1e6 : ℝ) / 0.608320238) = ((1e6 : ℝ) / 0.608320238) ^ (1 : ℝ) :=
            (Real.rpow_one _).symm
        _ ≤ ((1e6 : ℝ) / 0.608320238) ^ (1.056058295 : ℝ) :=
            Real.rpow_le_rpow_of_exponent_le hc1 (by norm_num)
    have hpos : (0 : ℝ) < 1 + ((1e6 : ℝ) / 0.608320238) ^ (1.056058295 : ℝ) := by
      nlinarith
    have hval : calculate_k_factor 1e6 - 0.502506534
        = (0.277833218 - 0.502506534 : ℝ)
          / (1 + ((1e6 : ℝ) / 0.608320238) ^ (1.056058295 : ℝ)) := by
      unfold calculate_k_factor a b c d
      ring
    rw [hval, abs_div, abs_of_pos hpos]
    rw [div_le_iff hpos]
    have habs : |(0.277833218 - 0.502506534 : ℝ)| = 0.224673316 := by
      rw [abs_of_neg (by norm_num)]
      norm_num
    rw [habs]
    nlinarith

/-- Witness for C7's middle conjunct at the concrete ratio 1. -/
theorem claim_C7_witness : calculate_k_factor 1 < 0.502506534 :=
  claim_C7.2.1 1 (by norm_num)

/-- The scan only ever returns its starting row or a row of the list. -/
theorem scanClosest_mem (r_s : ℝ) :
    ∀ (l : List (ℝ × ℝ)) (best : ℝ × ℝ) (minDiff : ℝ),
      scanClosest r_s l best minDiff ∈ best :: l
  | [], best, _ => List.mem_cons_self best []
  | e :: rest, best, minDiff => by
      rw [scanClosest]
      split
      · exact List.mem_cons_of_mem _ (scanClosest_mem r_s rest e _)
      · rcases List.mem_cons.mp (scanClosest_mem r_s rest best minDiff) with h1 | h1
        · rw [h1]
          exact List.mem_cons_self _ _
        · exact List.mem_cons_of_mem _ (List.mem_cons_of_mem _ h1)

/-- When `minDiff` is the starting row's distance, the scan's result is at
least as close to `r_s` as the starting row and as every row of the list. -/
theorem scanClosest_le (r_s : ℝ) :
    ∀ (l : List (ℝ × ℝ)) (best : ℝ × ℝ) (minDiff : ℝ),
      minDiff = |best.1 - r_s| →
      |(scanClosest r_s l best minDiff).1 - r_s| ≤ |best.1 - r_s|
      ∧ ∀ e ∈ l, |(scanClosest r_s l best minDiff).1 - r_s| ≤ |e.1 - r_s|
  | [], best, minDiff => fun _ => ⟨le_refl _, by simp⟩
  | e :: rest, best, minDiff => fun hm => by
      rw [scanClosest]
      split
      · rename_i hlt
        obtain ⟨ih1, ih2⟩ := scanClosest_le r_s rest e _ rfl
        rw [hm] at hlt
        refine ⟨ih1.trans hlt.le, ?_⟩
        intro x hx
        rcases List.mem_cons.mp hx with h1 | h1
        · exact h1 ▸ ih1
        · exact ih2 x h1
      · rename_i hge
        rw [hm, not_lt] at hge
        obtain ⟨ih1, ih2⟩ := scanClosest_le r_s rest best minDiff hm
        refine ⟨ih1, ?_⟩
        intro x hx
        rcases List.mem_cons.mp hx with h1 | h1
        · exact h1 ▸ (ih1.trans hge)
        · exact ih2 x h1

/-- When `minDiff` is the starting row's distance, the scan keeps the
starting row unless some row is strictly closer, and then it returns the
first such closest row: every row before it in the list is strictly
farther from `r_s`. -/
theorem scanClosest_first (r_s : ℝ) :
    ∀ (l : List (ℝ × ℝ)) (best : ℝ × ℝ) (minDiff : ℝ),
      minDiff = |best.1 - r_s| →
      scanClosest r_s l best minDiff = best
      ∨ ∃ l1 l2, l = l1 ++ scanClosest r_s l best minDiff :: l2
          ∧ |(scanClosest r_s l best minDiff).1 - r_s| < |best.1 - r_s|
          ∧ ∀ e ∈ l1, |(scanClosest r_s l best minDiff).1 - r_s| < |e.1 - r_s|
  | [], best, minDiff => fun _ => Or.inl rfl
  | e :: rest, best, minDiff => fun hm => by
      rw [scanClosest]
      split
      · rename_i hlt
        rw [hm] at hlt
        rcases scanClosest_first r_s rest e _ rfl with h | ⟨l1, l2, hsplit, hclose, hfar⟩
        · refine Or.inr ⟨[], rest, ?_, ?_, ?_⟩
          · rw [h]
            rfl
          · rw [h]; exact hlt
          · intro x hx; cases hx
        · refine Or.inr ⟨e :: l1, l2, ?_, hclose.trans hlt, ?_⟩
          · rw [List.cons_append, ← hsplit]
          · intro x hx
            rcases List.mem_cons.mp hx with h1 | h1
            · exact h1 ▸ hclose
            · exact hfar x h1
      · rename_i hge
        rw [hm, not_lt] at hge
        rcases scanClosest_first r_s rest best minDiff hm with h | ⟨l1, l2, hsplit, hclose, hfar⟩
        · exact Or.inl h
        · refine Or.inr ⟨e :: l1, l2, ?_, hclose, ?_⟩
          · rw [List.cons_append, ← hsplit]
          · intro x hx
            rcases List.mem_cons.mp hx with h1 | h1
            · exact h1 ▸ (hclose.trans_le hge)
            · exact hfar x h1

/-- Claim C8: for every real ratio, the closest-reference-entry scan returns
a table row minimising the absolute difference of the `r/s` column to the
ratio, ties broken by the first-encountered row (every earlier row is
strictly farther); and at ratio 0 it returns the first row `(0.2, 0.33)`. -/
theorem claim_C8 :
    (∀ r_s : ℝ,
        closest_entry r_s ∈ kTable
        ∧ (∀ e ∈ kTable, |(closest_entry r_s).1 - r_s| ≤ |e.1 - r_s|)
        ∧ (closest_entry r_s = kTable.headI
            ∨ ∃ l1 l2, kTable = l1 ++ closest_entry r_s :: l2
                ∧ ∀ e ∈ l1, |(closest_entry r_s).1 - r_s| < |e.1 - r_s|))
    ∧ closest_entry 0 = (0.2, 0.33) := by
  constructor
  · intro r_s
    refine ⟨?_, ?_, ?_⟩
    · rcases List.mem_cons.mp (scanClosest_mem r_s kTable kTable.headI _) with h | h
      · rw [closest_entry, h, kTable_eq]
        simp [List.headI]
      · exact h
    · exact (scanClosest_le r_s kTable kTable.headI _ rfl).2
    · rcases scanClosest_first r_s kTable kTable.headI _ rfl with h | ⟨l1, l2, hsplit, _, hfar⟩
      · exact Or.inl h
      · exact Or.inr ⟨l1, l2, hsplit, hfar⟩
  · rw [closest_entry, kTable_eq]
    norm_num [scanClosest, List.headI, abs_of_nonneg]

/-- Witness for C8's minimality conjunct at ratio 3 against the row
`(2.5, 0.46)`. -/
theorem claim_C8_witness :
    |(closest_entry 3).1 - 3| ≤ |((2.5 : ℝ), (0.46 : ℝ)).1 - 3| :=
  (claim_C8.1 3).2.1 (2.5, 0.46) (by rw [kTable_eq]; norm_num)

/-- Two-sided numeric bounds on the curve at ratio 1: sandwich the real
power `(1/c) ^ b` between rational 64th roots of integer powers of `1/c`
(`67 ≤ 64 * b ≤ 68`), then propagate through the logistic formula. -/
theorem k_factor_one_bounds :
    0.4185 < calculate_k_factor 1 ∧ calculate_k_factor 1 < 0.4195 := by
  have hbase : (1 : ℝ) ≤ 1 / 0.608320238 := by norm_num
  have hbase0 : (0 : ℝ) ≤ 1 / 0.608320238 := by norm_num
  have ht64 : (((1 : ℝ) / 0.608320238) ^ (1.056058295 : ℝ)) ^ (64 : ℕ)
      = ((1 : ℝ) / 0.608320238) ^ ((1.056058295 : ℝ) * 64) := by
    rw [← Real.rpow_natCast (((1 : ℝ) / 0.608320238) ^ (1.056058295 : ℝ)) 64,
      ← Real.rpow_mul hbase0]
    norm_num
  have hlow : ((1 : ℝ) / 0.608320238) ^ (67 : ℕ)
      ≤ (((1 : ℝ) / 0.608320238) ^ (1.056058295 : ℝ)) ^ (64 : ℕ) := by
    rw [ht64, ← Real.rpow_natCast ((1 : ℝ) / 0.608320238) 67]
    exact Real.rpow_le_rpow_of_exponent_le hbase (by norm_num)
  have hhigh : (((1 : ℝ) / 0.608320238) ^ (1.056058295 : ℝ)) ^ (64 : ℕ)
      ≤ ((1 : ℝ) / 0.608320238) ^ (68 : ℕ) := by
    rw [ht64, ← Real.rpow_natCast ((1 : ℝ) / 0.608320238) 68]
    exact Real.rpow_le_rpow_of_exponent_le hbase (by norm_num)
  have hL : (1.6825 : ℝ) ^ (64 : ℕ) ≤ ((1 : ℝ) / 0.608320238) ^ (67 : ℕ) := by
    norm_num
  have hU : ((1 : ℝ) / 0.608320238) ^ (68 : ℕ) ≤ (1.696 : ℝ) ^ (64 : ℕ) := by
    norm_num
  have ht0 : (0 : ℝ) ≤ ((1 : ℝ) / 0.608320238) ^ (1.056058295 : ℝ) :=
    Real.rpow_nonneg hbase0 _
  have htL : (1.6825 : ℝ) ≤ ((1 : ℝ) / 0.608320238) ^ (1.056058295 : ℝ) :=
    le_of_pow_le_pow_left (by norm_num) ht0 (hL.trans hlow)
  have htU : ((1 : ℝ) / 0.608320238) ^ (1.056058295 : ℝ) ≤ (1.696 : ℝ) :=
    le_of_pow_le_pow_left (by norm_num) (by norm_num) (hhigh.trans hU)
  have h1t : (0 : ℝ) < 1 + ((1 : ℝ) / 0.608320238) ^ (1.056058295 : ℝ) := by linarith
  have hval : calculate_k_factor 1
      = 0.502506534 + (0.277833218 - 0.502506534)
          / (1 + ((1 : ℝ) / 0.608320238) ^ (1.056058295 : ℝ)) := by
    unfold calculate_k_factor a b c d
    rfl
  constructor
  · rw [hval]
    have hfrac : (0.4185 - 0.502506534 : ℝ)
        < (0.277833218 - 0.502506534 : ℝ)
          / (1 + ((1 : ℝ) / 0.608320238) ^ (1.056058295 : ℝ)) := by
      rw [lt_div_iff h1t]
      nlinarith [htL]
    linarith
  · rw [hval]
    have hfrac : (0.277833218 - 0.502506534 : ℝ)
          / (1 + ((1 : ℝ) / 0.608320238) ^ (1.056058295 : ℝ))
        < (0.4195 - 0.502506534 : ℝ) := by
      rw [div_lt_iff h1t]
      nlinarith [htU]
    linarith

/-- Counterexample to C6 as stated: at ratio 1.0 the curve's value lies
below 0.4195, hence more than 0.005 (far beyond the 0.4372 figure's stated
precision) away from 0.4372. -/
theorem claim_C6_counterexample : (0.005 : ℝ) < |calculate_k_factor 1 - 0.4372| := by
  obtain ⟨h1, h2⟩ := k_factor_one_bounds
  rw [abs_of_neg (by linarith)]
  linarith

/-- Claim C6 amended: evaluating the K-factor curve at ratio 1.0 (the
`r=1, s=1` case) yields approximately 0.419 — within 0.0005 of 0.419 —
not 0.4372. -/
theorem claim_C6_amended : |calculate_k_factor 1 - 0.419| < 0.0005 := by
  obtain ⟨h1, h2⟩ := k_factor_one_bounds
  rw [abs_lt]
  constructor <;> linarith

end KFactor
